import Mathlib

/-!
Shallow embedding of the scrolling-video frame pipeline of
`app/services/roll_video/new/roll_video_service.py` and
`app/services/roll_video/renderer/video_renderer.py`.

Conventions: machine floating-point values (`numpy.float32` / Python `float`)
are modelled as exact rationals (`ℚ`); `uint8` pixel values as `ℕ`;
`x.astype(np.uint8)` applied to nonnegative in-range data as
`Int.toNat ∘ Int.floor` (Python/numpy truncation toward zero agrees with
`Int.floor` on nonnegative values, the only values these code paths produce);
`int(x)` likewise.  Fallible paths are modelled with explicit outcome types.
-/

namespace RollVideo

/-- A source bitmap as a total pixel map `(row, column, channel) ↦ uint8 value`;
channel `3` is alpha.  This is `img_np` of `_create_frame_generator`
(`roll_video_service.py:397`) before the `/ 255.0` normalization. -/
def Src : Type := ℕ → ℕ → ℕ → ℕ

/-- The configuration captured by the `_create_frame_generator` closure
(`roll_video_service.py:366-434`): image height, viewport geometry, the
scaled scroll speed, the scroll-end frame index, the transparency flag, the
background color `bg_color` (RGBA bytes, as a channel map), and the
`use_frame_cache` switch read from the video renderer. -/
structure GenCfg where
  imgHeight : ℕ
  imgWidth : ℕ
  targetHeight : ℕ
  targetWidth : ℕ
  scrollSpeed : ℚ
  scrollFramesNeeded : ℕ
  transparent : Bool
  bg : ℕ → ℕ
  useFrameCache : Bool

/-- `b / 255.0`: byte to normalized float, `roll_video_service.py:397`. -/
def norm01 (b : ℕ) : ℚ := (b : ℚ) / 255

/-- `(x * 255).astype(np.uint8)` on nonnegative `x`
(`roll_video_service.py:501-511`). -/
def toByte (x : ℚ) : ℕ := (⌊x * 255⌋).toNat

/-- Modelled from the spec: `blend_alpha_fast` is imported by the service from
the `renderer` package (`roll_video_service.py:9`) but its definition is not
under `src/`; spec §4.1 gives its contract as straight-alpha over-compositing
`out = src_rgb * alpha + dst_rgb * (1 - alpha)` over normalized values. -/
def blend_alpha_fast (src dst a : ℚ) : ℚ := src * a + dst * (1 - a)

/-- Channel count of an output frame: `4` for RGBA (transparent), `3` for RGB
(`roll_video_service.py:417-423`). -/
def numChannels (cfg : GenCfg) : ℕ := if cfg.transparent then 4 else 3

/-- Pixel `(r, c, ch)` of a scroll-phase output frame, given the slice bounds
computed by the generator (`roll_video_service.py:493-511`): rows below
`sliceHeight` carry the windowed source (copied as-is when transparent,
alpha-blended against the background otherwise), remaining rows carry the
background template. -/
def scrollFramePixel (cfg : GenCfg) (src : Src) (sliceStart sliceHeight : ℕ)
    (r c ch : ℕ) : ℕ :=
  if cfg.transparent then
    if r < sliceHeight then toByte (norm01 (src (sliceStart + r) c ch))
    else cfg.bg ch
  else
    if ch < 3 then
      if r < sliceHeight then
        toByte (blend_alpha_fast (norm01 (src (sliceStart + r) c ch))
          (norm01 (cfg.bg ch)) (norm01 (src (sliceStart + r) c 3)))
      else toByte (norm01 (cfg.bg ch))
    else 0

/-- What one call of the generated closure returns: either the cached pure
background frame `end_frame` (`roll_video_service.py:431`) or a windowed
scroll frame described by its slice start and height. -/
inductive GenResult where
  | endFrame : GenResult
  | scrollFrame (sliceStart sliceHeight : ℕ) : GenResult
  deriving DecidableEq

/-- Pixel content of a returned frame.  `end_frame` is a copy of the
background template (`roll_video_service.py:414-431`): `bg_color` on every
channel the frame has. -/
def resultPixel (cfg : GenCfg) (src : Src) : GenResult → ℕ → ℕ → ℕ → ℕ
  | GenResult.endFrame => fun _ _ ch => if ch < numChannels cfg then cfg.bg ch else 0
  | GenResult.scrollFrame s h => scrollFramePixel cfg src s h

/-- Mutable state of the closure: the floating-point `position_accumulator`
(`roll_video_service.py:434`) and the `frame_cache` dict
(`roll_video_service.py:405`). -/
structure GenState where
  acc : ℚ
  cache : List (ℕ × GenResult)

/-- Closure state right after `_create_frame_generator` returns. -/
def initState : GenState := { acc := 0, cache := [] }

/-- `frame_cache[frame_index] = frame` guarded by `use_frame_cache`
(`roll_video_service.py:449-450,474-475,485-486,513-515`). -/
def cachePut (useCache : Bool) (cache : List (ℕ × GenResult)) (i : ℕ)
    (g : GenResult) : List (ℕ × GenResult) :=
  if useCache then (i, g) :: cache else cache

/-- The accumulator update of one non-cached call
(`roll_video_service.py:457-462`): frame `0` resets the accumulator, any
other frame adds `scroll_speed` to it. -/
def nextAcc (cfg : GenCfg) (i : ℕ) (a : ℚ) : ℚ :=
  if i = 0 then 0 else a + cfg.scrollSpeed

/-- The frame a non-cached call returns (`roll_video_service.py:444-521`):
end phase when `frame_index >= scroll_frames_needed`; background when the
accumulated position reaches `img_height`; background when the slice range is
empty; otherwise the window `[slice_start, min(slice_start + target_height,
img_height))` with `slice_start = int(current_position)`. -/
def stepResult (cfg : GenCfg) (i : ℕ) (a : ℚ) : GenResult :=
  if cfg.scrollFramesNeeded ≤ i then GenResult.endFrame
  else if (cfg.imgHeight : ℚ) ≤ nextAcc cfg i a then GenResult.endFrame
  else if cfg.imgHeight ≤ (⌊nextAcc cfg i a⌋).toNat ∨ cfg.targetHeight = 0 then
    GenResult.endFrame
  else
    GenResult.scrollFrame ((⌊nextAcc cfg i a⌋).toNat)
      (min ((⌊nextAcc cfg i a⌋).toNat + cfg.targetHeight) cfg.imgHeight
        - (⌊nextAcc cfg i a⌋).toNat)

/-- Accumulator after one non-cached call: the end-phase branch returns before
touching the accumulator (`roll_video_service.py:446-451`); every other
branch runs the update at `roll_video_service.py:457-462` first. -/
def stepAcc (cfg : GenCfg) (i : ℕ) (a : ℚ) : ℚ :=
  if cfg.scrollFramesNeeded ≤ i then a else nextAcc cfg i a

/-- One call of the generated closure `frame_generator(frame_index)`
(`roll_video_service.py:436-521`): a cache hit returns the cached frame and
leaves all state alone; otherwise the accumulator advances per `stepAcc`, the
result per `stepResult`, and the result is cached when caching is on. -/
def genStep (cfg : GenCfg) (s : GenState) (i : ℕ) : GenState × GenResult :=
  if cfg.useFrameCache = true ∧ (List.lookup i s.cache).isSome = true then
    (s, (List.lookup i s.cache).getD GenResult.endFrame)
  else
    ({ acc := stepAcc cfg i s.acc,
       cache := cachePut cfg.useFrameCache s.cache i (stepResult cfg i s.acc) },
      stepResult cfg i s.acc)

/-- Closure state after the sequential render has requested frames
`0, 1, …, n-1` once each in order, the order `render_frames` uses. -/
def seqState (cfg : GenCfg) : ℕ → GenState
  | 0 => initState
  | n + 1 => (genStep cfg (seqState cfg n) n).1

/-- The frame the sequential render obtains for index `n`. -/
def seqResult (cfg : GenCfg) (n : ℕ) : GenResult :=
  (genStep cfg (seqState cfg n) n).2

/-- The value of `position_accumulator` right after the sequential render has
processed frame `n`: in the scroll phase this is the scroll position `p_n`
used to slice frame `n`. -/
def seqPos (cfg : GenCfg) (n : ℕ) : ℚ := (seqState cfg (n + 1)).acc

/-- `frame.tobytes()`: row-major, top-left origin serialization of one output
frame (`video_renderer.py:689`). -/
def frameBytes (cfg : GenCfg) (src : Src) (g : GenResult) : List ℕ :=
  (List.range cfg.targetHeight).flatMap fun r =>
    (List.range cfg.targetWidth).flatMap fun c =>
      (List.range (numChannels cfg)).map fun ch => resultPixel cfg src g r c ch

/-- The byte stream fed to the encoder's stdin by the sequential render:
the concatenation of the serialized frames in index order, nothing between
them (`video_renderer.py:683-691`). -/
def streamBytes (cfg : GenCfg) (src : Src) (n : ℕ) : List ℕ :=
  (List.range n).flatMap fun i => frameBytes cfg src (seqResult cfg i)

/-- Outcome of the scroll-speed handling in `create_roll_video`. -/
inductive SpeedDecision where
  | proceed (speed : ℚ) : SpeedDecision
  | configError : SpeedDecision
  deriving DecidableEq

/-- The scaled scroll speed computed at `roll_video_service.py:230-236`:
below `5` px/frame the product with the scale factor is kept fractional but
clamped from below to `0.5`; at `5` or above it is truncated to an integer
and clamped from below to `1`. -/
def computeScaledScrollSpeed (scroll_speed scale_factor : ℚ) : ℚ :=
  if scroll_speed < 5 then max (1 / 2) (scroll_speed * scale_factor)
  else ((max 1 ⌊scroll_speed * scale_factor⌋ : ℤ) : ℚ)

/-- What `create_roll_video` decides about the scroll speed
(`roll_video_service.py:228-236`): it always proceeds with the computed
speed; no code path raises a configuration error. -/
def scrollSpeedDecision (scroll_speed scale_factor : ℚ) : SpeedDecision :=
  SpeedDecision.proceed (computeScaledScrollSpeed scroll_speed scale_factor)

/-- `scroll_frames_needed = int(np.ceil(img_height / scaled_scroll_speed))`
(`roll_video_service.py:301`). -/
def scroll_frames_needed_calc (img_height : ℕ) (v : ℚ) : ℤ :=
  ⌈(img_height : ℚ) / v⌉

/-- The padded total of `create_scrolling_video` (`video_renderer.py:968-980`):
`int(start_static_time*fps + max(0, img_height - height)/scroll_speed +
end_static_time*fps)` with `start_static_time = end_static_time = 3`. -/
def cs_total_frames (img_height height fps : ℕ) (v : ℚ) : ℤ :=
  ⌊((3 * fps : ℕ) : ℚ) + ((max 0 ((img_height : ℤ) - (height : ℤ))) : ℚ) / v
    + ((3 * fps : ℕ) : ℚ)⌋

/-- The spec's padded-mode formula, written from the spec's words for
comparison with `cs_total_frames`: every term rounded up separately,
`N_head + N_scroll + N_tail`. -/
def specPaddedTotal (img_height height fps : ℕ) (v : ℚ) : ℤ :=
  ⌈((3 * fps : ℕ) : ℚ)⌉ + ⌈((max 0 ((img_height : ℤ) - (height : ℤ))) : ℚ) / v⌉
    + ⌈((3 * fps : ℕ) : ℚ)⌉

/-- The frame-count reconciliation of `create_roll_video`
(`roll_video_service.py:329-340`): when the renderer's `total_frames` and the
service's `scroll_frames_needed` disagree, the smaller is raised to the
larger; result is `(total_frames, scroll_frames_needed)` after adjustment. -/
def reconcileFrameCounts (total_frames scroll_frames_needed : ℕ) : ℕ × ℕ :=
  if total_frames ≠ scroll_frames_needed then
    if total_frames > scroll_frames_needed then (total_frames, total_frames)
    else (scroll_frames_needed, scroll_frames_needed)
  else (total_frames, scroll_frames_needed)

/-- How `create_scrolling_video_optimized` can end: return the output path
(success), return Python `None` (failure signalled by value), or propagate a
raised exception. -/
inductive RenderOutcome where
  | success (path : String) : RenderOutcome
  | failureNone : RenderOutcome
  | raisedError (message : String) : RenderOutcome
  deriving DecidableEq

/-- How the pipeline section of `create_scrolling_video_optimized` ends:
either the frame loop and the encoder wait ran to completion, leaving a
return code (`video_renderer.py:758-802`; `-9` stands for the watchdog
timeout), or an exception escaped the section and was caught by the inner
`except` at `video_renderer.py:876`. -/
inductive PipelineEnd where
  | completed (return_code : ℤ) : PipelineEnd
  | raised : PipelineEnd
  deriving DecidableEq

/-- The tail of `create_scrolling_video_optimized`
(`video_renderer.py:862-929`).  On normal completion, a non-zero encoder
return code yields `return None` (line 865) and a zero one falls through to
`return output_path` (line 929).  A pipeline exception is caught at line 876,
logged, and swallowed (the handler only sets `retry_attempted` and falls
through), so control also reaches `return output_path` — success is reported
with no encoder exit code consulted.  Nothing on either path raises, and the
written-frame count is not consulted. -/
def finishOptimized (e : PipelineEnd) (output_path : String) : RenderOutcome :=
  match e with
  | PipelineEnd.completed rc =>
      if rc ≠ 0 then RenderOutcome.failureNone
      else RenderOutcome.success output_path
  | PipelineEnd.raised => RenderOutcome.success output_path

/-- Transparent-branch codec arguments of `_get_codec_parameters`
(`video_renderer.py:126-139`). -/
def gcp_transparent_params : List String :=
  ["-c:v", "prores_ks", "-profile:v", "4444", "-pix_fmt", "yuva444p10le",
   "-alpha_bits", "16", "-vendor", "ap10", "-colorspace", "bt709"]

/-- NVENC arguments of `_get_codec_parameters` (`video_renderer.py:151-159`). -/
def gcp_nvenc_params : List String :=
  ["-c:v", "h264_nvenc", "-preset", "p1", "-rc", "vbr", "-cq", "28",
   "-b:v", "4M", "-pix_fmt", "yuv420p", "-movflags", "+faststart"]

/-- libx264 veryfast arguments of `_get_codec_parameters`
(`video_renderer.py:164-180`). -/
def gcp_libx264_veryfast_params : List String :=
  ["-c:v", "libx264", "-preset", "veryfast", "-crf", "20",
   "-pix_fmt", "yuv420p", "-movflags", "+faststart"]

/-- Non-transparent ProRes arguments of `_get_codec_parameters`
(`video_renderer.py:183-189`). -/
def gcp_prores422_params : List String :=
  ["-c:v", "prores_ks", "-profile:v", "3", "-pix_fmt", "yuv422p10le",
   "-vendor", "ap10", "-colorspace", "bt709"]

/-- Default libx264 medium arguments of `_get_codec_parameters`
(`video_renderer.py:193-199`). -/
def gcp_libx264_medium_params : List String :=
  ["-c:v", "libx264", "-preset", "medium", "-crf", "20",
   "-pix_fmt", "yuv420p", "-movflags", "+faststart"]

/-- `_get_codec_parameters(preferred_codec, transparency_required, channels)`
(`video_renderer.py:108-202`), with the environment lookup `NO_GPU in
os.environ` and the platform checks passed in as booleans.  Returns the codec
argument list and the raw-input pixel format. -/
def get_codec_parameters (preferred_codec : String) (transparency_required : Bool)
    (channels : ℕ) (no_gpu_env is_windows is_linux : Bool) :
    List String × String :=
  if transparency_required || channels == 4 then (gcp_transparent_params, "rgba")
  else if preferred_codec == "h264_nvenc" && !no_gpu_env then
    if is_windows || is_linux then (gcp_nvenc_params, "rgb24")
    else (gcp_libx264_veryfast_params, "rgb24")
  else if preferred_codec == "h264_videotoolbox" then
    (gcp_libx264_veryfast_params, "rgb24")
  else if preferred_codec == "prores_ks" then (gcp_prores422_params, "rgb24")
  else (gcp_libx264_medium_params, "rgb24")

/-- Transparent-branch codec arguments of `create_scrolling_video`
(`video_renderer.py:994-1007`): note `-profile:v 4`. -/
def cs_transparent_params : List String :=
  ["-c:v", "prores_ks", "-profile:v", "4", "-pix_fmt", "yuva444p10le",
   "-alpha_bits", "16", "-vendor", "ap10", "-threads", "8"]

/-- Raw-input pixel format chosen by `create_scrolling_video`
(`video_renderer.py:990-1011`). -/
def cs_ffmpeg_pix_fmt (transparent : Bool) : String :=
  if transparent then "rgba" else "rgb24"

/-- Output-path extension rewriting of `create_scrolling_video`
(`video_renderer.py:993,1012`), on a path split into stem and extension:
transparent output becomes `stem + ".mov"`, opaque `stem + ".mp4"`. -/
def cs_output_path (transparent : Bool) (stem : String) : String :=
  if transparent then stem ++ ".mov" else stem ++ ".mp4"

/-- Per-channel RGBA-to-RGB flattening of `create_scrolling_video_optimized`
(`video_renderer.py:330-334`): straight-alpha over-compositing of a source
byte over a background byte with `alpha = a / 255.0`, then `astype(np.uint8)`. -/
def composite_rgba_to_rgb (src_v bg_v a : ℕ) : ℕ :=
  (⌊(src_v : ℚ) * ((a : ℚ) / 255) + (bg_v : ℚ) * (1 - (a : ℚ) / 255)⌋).toNat

/-- A concrete configuration used by witnesses: a 2-wide, 4-tall viewport over
a 5-row source, fractional speed 1.5 px/frame, 4 scroll frames, opaque gray
background, frame cache off. -/
def cfgW : GenCfg :=
  { imgHeight := 5, imgWidth := 2, targetHeight := 4, targetWidth := 2,
    scrollSpeed := 3 / 2, scrollFramesNeeded := 4, transparent := false,
    bg := fun _ => 7, useFrameCache := false }

/-- A concrete fully opaque source whose color channels encode `row + col`. -/
def srcW : Src := fun r c ch => if ch = 3 then 255 else r + c

/-- Configuration for the repeated-request run: speed 2 px/frame, 2-tall
viewport over an 8-row source, cache off. -/
def cfgT : GenCfg :=
  { imgHeight := 8, imgWidth := 1, targetHeight := 2, targetWidth := 1,
    scrollSpeed := 2, scrollFramesNeeded := 4, transparent := false,
    bg := fun _ => 255, useFrameCache := false }

/-- A fully opaque source whose color channels encode the row index. -/
def srcT : Src := fun r _ ch => if ch = 3 then 255 else r

/-- First of two back-to-back requests for frame index `1` on a fresh
generator. -/
def runTwice1 : GenState × GenResult := genStep cfgT initState 1

/-- Second request for the same frame index `1`, on the state the first
request left behind. -/
def runTwice2 : GenState × GenResult := genStep cfgT runTwice1.1 1

theorem lookup_none_of_keys_ne {β : Type} (i : ℕ) :
    ∀ l : List (ℕ × β), (∀ p ∈ l, p.1 ≠ i) → List.lookup i l = none := by
  intro l
  induction l with
  | nil => intro _; rfl
  | cons a t ih =>
    intro hall
    obtain ⟨k, b⟩ := a
    have hk : k ≠ i := hall (k, b) (List.mem_cons_self _ _)
    have hik : (i == k) = false := beq_eq_false_iff_ne.mpr (Ne.symm hk)
    simp only [List.lookup, hik]
    exact ih fun p hp => hall p (List.mem_cons_of_mem _ hp)

theorem mem_of_mem_cachePut {useCache : Bool} {cache : List (ℕ × GenResult)}
    {i : ℕ} {g : GenResult} {p : ℕ × GenResult}
    (hp : p ∈ cachePut useCache cache i g) : p ∈ cache ∨ p.1 = i := by
  unfold cachePut at hp
  split at hp
  · rcases List.mem_cons.mp hp with hh | hh
    · right; rw [hh]
    · left; exact hh
  · left; exact hp

theorem genStep_cache_mem {cfg : GenCfg} {s : GenState} {i : ℕ}
    {p : ℕ × GenResult} (hp : p ∈ (genStep cfg s i).1.cache) :
    p ∈ s.cache ∨ p.1 = i := by
  unfold genStep at hp
  split at hp
  · left; exact hp
  · exact mem_of_mem_cachePut hp

theorem seq_cache_keys_lt (cfg : GenCfg) :
    ∀ n, ∀ p ∈ (seqState cfg n).cache, p.1 < n := by
  intro n
  induction n with
  | zero => intro p hp; simp [seqState, initState] at hp
  | succ k ih =>
    intro p hp
    rcases genStep_cache_mem
        (show p ∈ (genStep cfg (seqState cfg k) k).1.cache from hp) with hh | hh
    · exact Nat.lt_succ_of_lt (ih p hh)
    · omega

/-- In the sequential render each index is requested exactly once, so the
cache lookup for index `n` misses at the moment frame `n` is produced. -/
theorem seq_lookup_none (cfg : GenCfg) (n : ℕ) :
    List.lookup n (seqState cfg n).cache = none :=
  lookup_none_of_keys_ne n _ fun p hp => Nat.ne_of_lt (seq_cache_keys_lt cfg n p hp)

theorem seqResult_eq (cfg : GenCfg) (n : ℕ) :
    seqResult cfg n = stepResult cfg n ((seqState cfg n).acc) := by
  unfold seqResult genStep
  rw [seq_lookup_none]
  simp

theorem seqState_succ_acc (cfg : GenCfg) (n : ℕ) :
    (seqState cfg (n + 1)).acc = stepAcc cfg n ((seqState cfg n).acc) := by
  show (genStep cfg (seqState cfg n) n).1.acc = _
  unfold genStep
  rw [seq_lookup_none]
  simp

theorem seqPos_zero (cfg : GenCfg) (h : 0 < cfg.scrollFramesNeeded) :
    seqPos cfg 0 = 0 := by
  show (seqState cfg 1).acc = 0
  rw [seqState_succ_acc]
  unfold stepAcc nextAcc
  simp [Nat.not_le.mpr h]

theorem seqPos_succ (cfg : GenCfg) (i : ℕ) (h : i + 1 < cfg.scrollFramesNeeded) :
    seqPos cfg (i + 1) = seqPos cfg i + cfg.scrollSpeed := by
  show (seqState cfg (i + 1 + 1)).acc = _
  rw [seqState_succ_acc]
  unfold stepAcc nextAcc
  simp [Nat.not_le.mpr h]
  rfl

theorem seqResult_end_of_ge (cfg : GenCfg) (i : ℕ)
    (h : cfg.scrollFramesNeeded ≤ i) : seqResult cfg i = GenResult.endFrame := by
  rw [seqResult_eq]
  unfold stepResult
  rw [if_pos h]

theorem seqResult_scroll_inv (cfg : GenCfg) (i s h : ℕ)
    (hr : seqResult cfg i = GenResult.scrollFrame s h) :
    i < cfg.scrollFramesNeeded ∧ s = (⌊seqPos cfg i⌋).toNat ∧
    s < cfg.imgHeight ∧ 0 < cfg.targetHeight ∧
    h = min (s + cfg.targetHeight) cfg.imgHeight - s := by
  rw [seqResult_eq] at hr
  unfold stepResult at hr
  by_cases h1 : cfg.scrollFramesNeeded ≤ i
  · rw [if_pos h1] at hr; exact absurd hr (by simp)
  · rw [if_neg h1] at hr
    by_cases h2 : (cfg.imgHeight : ℚ) ≤ nextAcc cfg i ((seqState cfg i).acc)
    · rw [if_pos h2] at hr; exact absurd hr (by simp)
    · rw [if_neg h2] at hr
      by_cases h3 : cfg.imgHeight ≤ (⌊nextAcc cfg i ((seqState cfg i).acc)⌋).toNat
          ∨ cfg.targetHeight = 0
      · rw [if_pos h3] at hr; exact absurd hr (by simp)
      · rw [if_neg h3] at hr
        have hpos : seqPos cfg i = nextAcc cfg i ((seqState cfg i).acc) := by
          show (seqState cfg (i + 1)).acc = _
          rw [seqState_succ_acc]
          unfold stepAcc
          rw [if_neg h1]
        push_neg at h3
        injection hr with hs hh
        refine ⟨Nat.not_le.mp h1, ?_, ?_, ?_, ?_⟩
        · rw [← hs, hpos]
        · rw [← hs]; exact h3.1
        · exact Nat.pos_of_ne_zero h3.2
        · rw [← hh, ← hs]

/-- Background bytes survive the `uint8 → float32 → uint8` round trip exactly
(exact-rational model of `roll_video_service.py:423,511`). -/
theorem toByte_norm01 (b : ℕ) : toByte (norm01 b) = b := by
  unfold toByte norm01
  rw [div_mul_cancel₀ _ (by norm_num : (255 : ℚ) ≠ 0), Int.floor_natCast]
  exact Int.toNat_natCast b

/-- Claim C1: under the sequential render the scroll position satisfies the
recurrence `p_0 = 0` and `p_i = p_{i-1} + v` for every `i ≥ 1` in the scroll
phase, carried by the running floating-point accumulator `position_accumulator`
(`acc += v` per frame), and whenever a windowed frame is produced its slice
start — the only row index derived from the position — is exactly `⌊p_i⌋`. -/
theorem scroll_position_recurrence (cfg : GenCfg) :
    (0 < cfg.scrollFramesNeeded → seqPos cfg 0 = 0) ∧
    (∀ i, i + 1 < cfg.scrollFramesNeeded →
      seqPos cfg (i + 1) = seqPos cfg i + cfg.scrollSpeed) ∧
    (∀ i s h, seqResult cfg i = GenResult.scrollFrame s h →
      s = (⌊seqPos cfg i⌋).toNat) :=
  ⟨seqPos_zero cfg, seqPos_succ cfg,
    fun i s h hr => (seqResult_scroll_inv cfg i s h hr).2.1⟩

/-- Claim C1 witness: the recurrence and the floored slice start, evaluated on
the concrete configuration `cfgW` (speed `3/2`). -/
theorem scroll_position_recurrence_witness :
    seqPos cfgW 0 = 0 ∧ seqPos cfgW 2 = seqPos cfgW 1 + cfgW.scrollSpeed ∧
    3 = (⌊seqPos cfgW 2⌋).toNat :=
  ⟨(scroll_position_recurrence cfgW).1 (by norm_num [cfgW]),
   (scroll_position_recurrence cfgW).2.1 1 (by norm_num [cfgW]),
   (scroll_position_recurrence cfgW).2.2 2 3 2 (by
     norm_num [seqResult, seqState, genStep, stepAcc, stepResult, nextAcc,
       cachePut, initState, cfgW, List.lookup]
     omega)⟩

/-- Claim C2 counterexample: the generator is not a pure function of the frame
index.  Requesting frame `1` twice on a fresh generator (cache off) advances
the accumulator twice: the first request slices at row 2, the second at row 4,
and the two frames differ pixelwise at `(0,0)` channel 0. -/
theorem frame_generator_not_pure_counterexample :
    runTwice1.2 = GenResult.scrollFrame 2 2 ∧
    runTwice2.2 = GenResult.scrollFrame 4 2 ∧
    resultPixel cfgT srcT runTwice1.2 0 0 0 = 2 ∧
    resultPixel cfgT srcT runTwice2.2 0 0 0 = 4 ∧
    resultPixel cfgT srcT runTwice1.2 0 0 0 ≠
      resultPixel cfgT srcT runTwice2.2 0 0 0 := by
  refine ⟨?_, ?_, ?_, ?_, ?_⟩ <;>
    (norm_num [runTwice1, runTwice2, genStep, stepAcc, stepResult, nextAcc,
      cachePut, initState, cfgT, srcT, resultPixel, scrollFramePixel,
      toByte, norm01, blend_alpha_fast, List.lookup]) <;> omega

/-- Claim C2 amended: under the sequential protocol that the renderer uses —
each index requested exactly once, in increasing order from 0 — the position
used for frame `i` is determined by `i` alone (`p_i = i·v` exactly, in the
exact-rational model), so re-running with identical parameters and source
yields an identical frame stream; out-of-order or repeated requests, however,
mutate the accumulator and can change the frame produced for an index. -/
theorem seq_position_pure_of_index (cfg : GenCfg) :
    ∀ i, i < cfg.scrollFramesNeeded → seqPos cfg i = (i : ℚ) * cfg.scrollSpeed := by
  intro i
  induction i with
  | zero => intro h; simpa using seqPos_zero cfg h
  | succ k ih =>
    intro h
    rw [seqPos_succ cfg k h, ih (Nat.lt_of_succ_lt h)]
    push_cast
    ring

/-- Claim C2 amended witness: `p_3 = 3 · (3/2)` on `cfgW`. -/
theorem seq_position_pure_of_index_witness :
    seqPos cfgW 3 = (3 : ℚ) * cfgW.scrollSpeed :=
  seq_position_pure_of_index cfgW 3 (by norm_num [cfgW])

/-- Claim C3 counterexample: with requested speed `0.3 < 0.5` px/frame (scale
factor 1) the service does not raise any configuration error — it proceeds
with the speed clamped up to `0.5`. -/
theorem slow_speed_clamped_counterexample :
    scrollSpeedDecision (3 / 10) 1 = SpeedDecision.proceed (1 / 2) ∧
    scrollSpeedDecision (3 / 10) 1 ≠ SpeedDecision.configError := by
  have hle : (3 / 10 : ℚ) * 1 ≤ 1 / 2 := by norm_num
  have hlt : (3 / 10 : ℚ) < 5 := by norm_num
  constructor
  · unfold scrollSpeedDecision computeScaledScrollSpeed
    rw [if_pos hlt, max_eq_left hle]
  · unfold scrollSpeedDecision
    simp

/-- Claim C3 amended: `create_roll_video` never raises a configuration error
for a slow speed; when `scroll_speed < 5` it proceeds with
`max(0.5, scroll_speed · scale_factor)`, so an effective speed below `0.5`
px/frame is clamped to exactly `0.5` and any other one is kept. -/
theorem scroll_speed_clamp (v s : ℚ) :
    scrollSpeedDecision v s ≠ SpeedDecision.configError ∧
    (v < 5 → v * s < 1 / 2 →
      scrollSpeedDecision v s = SpeedDecision.proceed (1 / 2)) ∧
    (v < 5 → 1 / 2 ≤ v * s →
      scrollSpeedDecision v s = SpeedDecision.proceed (v * s)) := by
  refine ⟨by unfold scrollSpeedDecision; simp, ?_, ?_⟩
  · intro hv hs
    unfold scrollSpeedDecision computeScaledScrollSpeed
    rw [if_pos hv, max_eq_left (le_of_lt hs)]
  · intro hv hs
    unfold scrollSpeedDecision computeScaledScrollSpeed
    rw [if_pos hv, max_eq_right hs]

/-- Claim C3 amended witness: clamping at `v = 0.3` and pass-through at
`v = 1` (scale factor 1). -/
theorem scroll_speed_clamp_witness :
    scrollSpeedDecision (3 / 10) 1 ≠ SpeedDecision.configError ∧
    scrollSpeedDecision (3 / 10) 1 = SpeedDecision.proceed (1 / 2) ∧
    scrollSpeedDecision 1 1 = SpeedDecision.proceed ((1 : ℚ) * 1) :=
  ⟨(scroll_speed_clamp (3 / 10) 1).1,
   (scroll_speed_clamp (3 / 10) 1).2.1 (by norm_num) (by norm_num),
   (scroll_speed_clamp 1 1).2.2 (by norm_num) (by norm_num)⟩

/-- Claim C4 counterexample: at `img_height = 725`, `video height = 720`,
`fps = 30`, `v = 2` the padded total computed by `create_scrolling_video` is
`int(90 + 2.5 + 90) = 182`, while the spec's per-term-ceiling formula gives
`90 + 3 + 90 = 183`. -/
theorem padded_total_truncation_counterexample :
    cs_total_frames 725 720 30 2 = 182 ∧ specPaddedTotal 725 720 30 2 = 183 ∧
    cs_total_frames 725 720 30 2 ≠ specPaddedTotal 725 720 30 2 := by
  have h1 : cs_total_frames 725 720 30 2 = 182 := by
    unfold cs_total_frames
    norm_num
  have h2 : specPaddedTotal 725 720 30 2 = 183 := by
    unfold specPaddedTotal
    have hc : ⌈(5 : ℚ) / 2⌉ = 3 := by
      rw [Int.ceil_eq_iff]
      norm_num
    norm_num [hc]
  exact ⟨h1, h2, by rw [h1, h2]; omega⟩

/-- Claim C4 amended: the pure-scroll total is `⌈img_height / v⌉` as claimed;
the padded total of `create_scrolling_video` is
`3·fps + ⌊max(0, img_height − height) / v⌋ + 3·fps` — the head and tail terms
are exact integers and the fractional scroll term is truncated by the final
`int(...)`, not rounded up per term. -/
theorem total_frames_formulas (img_height height fps : ℕ) (v : ℚ) :
    scroll_frames_needed_calc img_height v = ⌈(img_height : ℚ) / v⌉ ∧
    cs_total_frames img_height height fps v =
      (3 * fps : ℕ) + ⌊((max 0 ((img_height : ℤ) - (height : ℤ))) : ℚ) / v⌋
        + (3 * fps : ℕ) := by
  refine ⟨rfl, ?_⟩
  unfold cs_total_frames
  rw [Int.floor_add_nat, Int.floor_nat_add]

/-- Claim C5: out of the sequential render, every frame at or past the scroll
end is an entire background frame; every windowed frame slices the source at
`[⌊p_i⌋, ⌊p_i⌋ + target_height)` clipped to `[0, img_height)`, and output
rows outside the clipped window carry `bg_color` on every channel the frame
has (alpha included when transparent). -/
theorem frame_window_clipping_background (cfg : GenCfg) (src : Src) :
    (∀ i, cfg.scrollFramesNeeded ≤ i → seqResult cfg i = GenResult.endFrame) ∧
    (∀ r c ch, ch < numChannels cfg →
      resultPixel cfg src GenResult.endFrame r c ch = cfg.bg ch) ∧
    (∀ i s h, seqResult cfg i = GenResult.scrollFrame s h →
      s = (⌊seqPos cfg i⌋).toNat ∧ s < cfg.imgHeight ∧ s + h ≤ cfg.imgHeight ∧
      h = min (s + cfg.targetHeight) cfg.imgHeight - s ∧
      (∀ r c ch, h ≤ r → ch < numChannels cfg →
        resultPixel cfg src (GenResult.scrollFrame s h) r c ch = cfg.bg ch)) := by
  refine ⟨seqResult_end_of_ge cfg, ?_, ?_⟩
  · intro r c ch hch
    show (if ch < numChannels cfg then cfg.bg ch else 0) = cfg.bg ch
    rw [if_pos hch]
  · intro i s h hr
    obtain ⟨hi, hs, hlt, hT, hh⟩ := seqResult_scroll_inv cfg i s h hr
    refine ⟨hs, hlt, by omega, hh, ?_⟩
    intro r c ch hhr hch
    show scrollFramePixel cfg src s h r c ch = cfg.bg ch
    unfold scrollFramePixel
    by_cases ht : cfg.transparent = true
    · rw [if_pos ht, if_neg (Nat.not_lt.mpr hhr)]
    · have ht2 : cfg.transparent = false := by
        cases hb : cfg.transparent
        · rfl
        · exact absurd hb ht
      have hch3 : ch < 3 := by
        unfold numChannels at hch
        rw [ht2] at hch
        simpa using hch
      rw [if_neg (by simp [ht2]), if_pos hch3, if_neg (Nat.not_lt.mpr hhr)]
      exact toByte_norm01 (cfg.bg ch)

/-- Claim C5 witness: on `cfgW`, frame 6 is a full background frame, a
background pixel equals `bg`, and frame 2 is the window `[3, 5)` (height 2)
whose row 3 — outside the window — carries `bg`. -/
theorem frame_window_clipping_background_witness :
    seqResult cfgW 6 = GenResult.endFrame ∧
    resultPixel cfgW srcW GenResult.endFrame 1 0 2 = cfgW.bg 2 ∧
    3 = (⌊seqPos cfgW 2⌋).toNat ∧ 3 < cfgW.imgHeight ∧ 3 + 2 ≤ cfgW.imgHeight ∧
    2 = min (3 + cfgW.targetHeight) cfgW.imgHeight - 3 ∧
    resultPixel cfgW srcW (GenResult.scrollFrame 3 2) 3 1 0 = cfgW.bg 0 := by
  have hmain := frame_window_clipping_background cfgW srcW
  have hinv := hmain.2.2 2 3 2 (by
    norm_num [seqResult, seqState, genStep, stepAcc, stepResult, nextAcc,
      cachePut, initState, cfgW, List.lookup]
    omega)
  exact ⟨hmain.1 6 (by norm_num [cfgW]),
    hmain.2.1 1 0 2 (by norm_num [numChannels, cfgW]),
    hinv.1, hinv.2.1, hinv.2.2.1, hinv.2.2.2.1,
    hinv.2.2.2.2 3 1 0 (by norm_num) (by norm_num [numChannels, cfgW])⟩

/-- Claim C6: the opaque compositor computes straight-alpha over-compositing
`out = src_rgb · α + dst_rgb · (1 − α)`, and therefore gives back the
destination at `α = 0` and the source at `α = 1` (byte `255`), pixel-exact:
both for the byte-level RGBA→RGB flattening in the renderer and for the
normalized `blend_alpha_fast` used by the frame generator. -/
theorem compositor_identities :
    (∀ s b : ℕ, composite_rgba_to_rgb s b 0 = b ∧
      composite_rgba_to_rgb s b 255 = s) ∧
    (∀ src dst : ℚ, blend_alpha_fast src dst 0 = dst ∧
      blend_alpha_fast src dst 1 = src) := by
  constructor
  · intro s b
    constructor
    · unfold composite_rgba_to_rgb
      norm_num
    · unfold composite_rgba_to_rgb
      norm_num
  · intro src dst
    constructor <;> (unfold blend_alpha_fast; ring)

theorem length_flatMap_const {α β : Type} (l : List α) (f : α → List β) (k : ℕ)
    (hf : ∀ a ∈ l, (f a).length = k) : (l.flatMap f).length = l.length * k := by
  induction l with
  | nil => simp
  | cons a t ih =>
    simp only [List.flatMap_cons, List.length_append, List.length_cons]
    rw [hf a (List.mem_cons_self _ _),
      ih fun b hb => hf b (List.mem_cons_of_mem _ hb)]
    ring

theorem frameBytes_length (cfg : GenCfg) (src : Src) (g : GenResult) :
    (frameBytes cfg src g).length
      = cfg.targetWidth * cfg.targetHeight * numChannels cfg := by
  unfold frameBytes
  have hrow : ∀ r ∈ List.range cfg.targetHeight,
      ((List.range cfg.targetWidth).flatMap fun c =>
        (List.range (numChannels cfg)).map fun ch =>
          resultPixel cfg src g r c ch).length
        = cfg.targetWidth * numChannels cfg := by
    intro r _
    have hcol : ∀ c ∈ List.range cfg.targetWidth,
        ((List.range (numChannels cfg)).map fun ch =>
          resultPixel cfg src g r c ch).length = numChannels cfg := by
      intro c _
      rw [List.length_map, List.length_range]
    rw [length_flatMap_const _ _ _ hcol, List.length_range]
  rw [length_flatMap_const _ _ _ hrow, List.length_range]
  ring

/-- Claim C7: every serialized frame is exactly `W · H · C` bytes with no
header; the stream of `n` frames is exactly `n · W · H · C` bytes with no
padding between frames; the frame generator produces `C = 4` channels exactly
when transparent and `C = 3` otherwise, and the pixel format declared to the
encoder is `rgba` in the former case and `rgb24` in the latter, so the
declared format always matches the byte layout. -/
theorem frame_byte_layout (cfg : GenCfg) (src : Src) (g : GenResult) (n : ℕ)
    (pc : String) (ng w l : Bool) :
    (frameBytes cfg src g).length
      = cfg.targetWidth * cfg.targetHeight * numChannels cfg ∧
    (streamBytes cfg src n).length
      = n * (cfg.targetWidth * cfg.targetHeight * numChannels cfg) ∧
    numChannels cfg = (if cfg.transparent then 4 else 3) ∧
    (get_codec_parameters pc cfg.transparent (numChannels cfg) ng w l).2
      = (if cfg.transparent then "rgba" else "rgb24") := by
  refine ⟨frameBytes_length cfg src g, ?_, rfl, ?_⟩
  · unfold streamBytes
    rw [length_flatMap_const _ _ _
      (fun i _ => frameBytes_length cfg src (seqResult cfg i)), List.length_range]
  · cases htr : cfg.transparent with
    | true => simp [get_codec_parameters]
    | false =>
      have hnc : numChannels cfg = 3 := by simp [numChannels, htr]
      rw [hnc]
      unfold get_codec_parameters
      norm_num
      split_ifs <;> rfl

/-- Claim C8 counterexample: a non-zero encoder exit code makes the optimized
renderer return Python `None` — a failure value, not a raised categorized
error with the cause attached — and a swallowed pipeline exception makes it
return the output path, reporting success with no zero encoder exit at all. -/
theorem nonzero_exit_returns_none_counterexample :
    finishOptimized (PipelineEnd.completed 1) "out.mp4"
      = RenderOutcome.failureNone ∧
    finishOptimized (PipelineEnd.completed 1) "out.mp4"
      ≠ RenderOutcome.raisedError "FFmpeg exited 1" ∧
    finishOptimized PipelineEnd.raised "out.mp4"
      = RenderOutcome.success "out.mp4" := by
  refine ⟨?_, ?_, rfl⟩
  · simp [finishOptimized]
  · simp [finishOptimized]

/-- Claim C8 amended: on normal pipeline completion,
`create_scrolling_video_optimized` returns the output path exactly when the
encoder exit code is zero and `None` otherwise (after logging); a pipeline
exception is caught, logged and swallowed, and the function still returns the
output path — reporting success without consulting any encoder exit code or
the written-frame count.  No categorized error is raised on either path. -/
theorem encoder_exit_outcome (rc : ℤ) (p : String) :
    (rc = 0 → finishOptimized (PipelineEnd.completed rc) p
      = RenderOutcome.success p) ∧
    (rc ≠ 0 → finishOptimized (PipelineEnd.completed rc) p
      = RenderOutcome.failureNone) ∧
    finishOptimized PipelineEnd.raised p = RenderOutcome.success p ∧
    (∀ msg, finishOptimized (PipelineEnd.completed rc) p
      ≠ RenderOutcome.raisedError msg) ∧
    (∀ msg, finishOptimized PipelineEnd.raised p
      ≠ RenderOutcome.raisedError msg) := by
  refine ⟨fun h => by simp [finishOptimized, h], fun h => by simp [finishOptimized, h],
    rfl, fun msg => ?_, fun msg => by simp [finishOptimized]⟩
  by_cases h : rc = 0
  · simp [finishOptimized, h]
  · simp [finishOptimized, h]

/-- Claim C8 amended witness: exit code `0` yields the path, exit code `1`
yields the `None` value, a swallowed pipeline exception yields the path, and
no input yields a raised error. -/
theorem encoder_exit_outcome_witness :
    finishOptimized (PipelineEnd.completed 0) "out.mp4"
      = RenderOutcome.success "out.mp4" ∧
    finishOptimized (PipelineEnd.completed 1) "out.mp4"
      = RenderOutcome.failureNone ∧
    finishOptimized PipelineEnd.raised "out.mp4"
      = RenderOutcome.success "out.mp4" ∧
    finishOptimized (PipelineEnd.completed 1) "out.mp4"
      ≠ RenderOutcome.raisedError "broken pipe" :=
  ⟨(encoder_exit_outcome 0 "out.mp4").1 rfl,
   (encoder_exit_outcome 1 "out.mp4").2.1 (by norm_num),
   (encoder_exit_outcome 1 "out.mp4").2.2.1,
   (encoder_exit_outcome 1 "out.mp4").2.2.2.1 "broken pipe"⟩

/-- Claim C9 counterexample: on the optimized path, a transparent encode
passes the ProRes profile as the string `"4444"`, not `"4"` — and that path
does not rewrite the output extension at all. -/
theorem transparent_profile_literal_counterexample :
    (get_codec_parameters "libx264" true 4 false false false).1.get? 3
      = some "4444" ∧
    (get_codec_parameters "libx264" true 4 false false false).1.get? 3
      ≠ some "4" := by
  constructor
  · rfl
  · simp [get_codec_parameters, gcp_transparent_params]

/-- Claim C9 amended: `create_scrolling_video` encodes transparent output with
`prores_ks`, `profile:v=4`, `pix_fmt=yuva444p10le`, `alpha_bits=16`,
`vendor=ap10` and forces the output extension to `.mov`; the optimized path's
`_get_codec_parameters` selects the same encoder settings for any preferred
codec but writes the profile as `4444` (the same ProRes 4444 profile, by
name) and leaves the caller's output path unchanged. -/
theorem transparent_encoder_parameters (pc : String) (ch : ℕ) (ng w l : Bool)
    (stem : String) :
    get_codec_parameters pc true ch ng w l = (gcp_transparent_params, "rgba") ∧
    cs_output_path true stem = stem ++ ".mov" ∧
    cs_ffmpeg_pix_fmt true = "rgba" ∧
    cs_transparent_params.get? 1 = some "prores_ks" ∧
    cs_transparent_params.get? 3 = some "4" ∧
    cs_transparent_params.get? 5 = some "yuva444p10le" ∧
    cs_transparent_params.get? 7 = some "16" ∧
    cs_transparent_params.get? 9 = some "ap10" ∧
    gcp_transparent_params.get? 1 = some "prores_ks" ∧
    gcp_transparent_params.get? 3 = some "4444" := by
  refine ⟨?_, rfl, rfl, rfl, rfl, rfl, rfl, rfl, rfl, rfl⟩
  simp [get_codec_parameters]

/-- A concrete configuration whose end-phase threshold equals the reconciled
frame count used in the C10 witness. -/
def cfgR : GenCfg :=
  { imgHeight := 5, imgWidth := 2, targetHeight := 4, targetWidth := 2,
    scrollSpeed := 3 / 2, scrollFramesNeeded := 7, transparent := false,
    bg := fun _ => 7, useFrameCache := false }

/-- Claim C10: the reconciliation sets both counts to the maximum of the two,
so rendering runs with `total_frames` equal to the generator's end-phase
threshold, and any index at or past that threshold produces a background
frame (so every rendered index is in the scroll range or yields background). -/
theorem frame_count_reconciliation (t s : ℕ) :
    (reconcileFrameCounts t s).1 = max t s ∧
    (reconcileFrameCounts t s).2 = max t s ∧
    (reconcileFrameCounts t s).1 = (reconcileFrameCounts t s).2 ∧
    (∀ cfg : GenCfg, cfg.scrollFramesNeeded = (reconcileFrameCounts t s).1 →
      ∀ i, (reconcileFrameCounts t s).1 ≤ i →
        seqResult cfg i = GenResult.endFrame) := by
  have hfst : (reconcileFrameCounts t s).1 = max t s := by
    unfold reconcileFrameCounts
    split_ifs <;> simp <;> omega
  have hsnd : (reconcileFrameCounts t s).2 = max t s := by
    unfold reconcileFrameCounts
    split_ifs <;> simp <;> omega
  refine ⟨hfst, hsnd, by rw [hfst, hsnd], ?_⟩
  intro cfg hcfg i hi
  exact seqResult_end_of_ge cfg i (by rw [hcfg]; exact hi)

/-- Claim C10 witness: reconciling totals `5` and `7` yields `(7, 7)`, and on
a generator with threshold `7` the rendered index `9` is background. -/
theorem frame_count_reconciliation_witness :
    (reconcileFrameCounts 5 7).1 = max 5 7 ∧
    (reconcileFrameCounts 5 7).2 = max 5 7 ∧
    (reconcileFrameCounts 5 7).1 = (reconcileFrameCounts 5 7).2 ∧
    seqResult cfgR 9 = GenResult.endFrame :=
  ⟨(frame_count_reconciliation 5 7).1, (frame_count_reconciliation 5 7).2.1,
   (frame_count_reconciliation 5 7).2.2.1,
   (frame_count_reconciliation 5 7).2.2.2 cfgR
     (by norm_num [reconcileFrameCounts, cfgR]) 9
     (by norm_num [reconcileFrameCounts])⟩

end RollVideo
